import Mathlib

/-!
Verification development for the TradeZero web-portfolio automation layer.

The embedding follows the repository sources:
* `igos_webdriver.py` — `Chrome.click_element`, the resilient click driver;
* `portfolio.py` — the `Portfolio` class (`portfolio`, `open_orders`,
  `invested`, `get_inventory`, `get_active_orders`,
  `symbol_present_in_active_orders`, `cancel_active_order`);
* `enums.py` — static string-valued vocabularies (not needed by any theorem:
  an `OrderType` value participates only as its backing string).

Selenium itself is external: its visible effects (whether a wait times out,
whether a located element exists, and which exception a physical click
raises) are supplied as explicit environment data, and each modelled
operation is a pure function of that environment, mirroring the Python
control flow statement by statement.
-/

set_option autoImplicit false
set_option maxRecDepth 4096

namespace TradeZero

/-! ### Resilient click driver (`igos_webdriver.py`, `Chrome.click_element`)

The driver interacts with the page in two phases.  Phase 1: wait up to 10 s
for the element at the locator to be clickable (a `TimeoutException` is
caught and only printed), then scroll it into view and click it (an
`ElementClickInterceptedException` is caught and only printed; despite the
source comment "Retry clicking the element" no retry happens inside this
phase).  Phase 2: a `for _ in range(3)` loop that re-locates the element
fresh from the locator and clicks, breaking on success and catching only
`ElementClickInterceptedException`.
-/

/-- Outcome of one physical click on a located element handle: the click
lands, it is intercepted by an overlapping element, or the handle has gone
stale. -/
inductive ClickOutcome where
  | ok
  | intercepted
  | stale
deriving DecidableEq, Repr, Fintype

/-- Exceptions that can escape a modelled operation to its caller. -/
inductive Exc where
  | staleExc
  | notFoundExc
  | interceptedExc
deriving DecidableEq, Repr, Fintype

/-- Environment data consumed by one iteration of the phase-2 retry loop:
whether `find_element` locates the element, and how the click on the fresh
handle turns out. -/
structure Phase2Try where
  found : Bool
  click : ClickOutcome
deriving DecidableEq, Repr, Fintype

/-- Environment for one `click_element` call: whether the clickability wait
succeeds within the 10 s bound (`waitOk = false` models the
`TimeoutException`), the outcome of the phase-1 click, and the environment
of each of the three phase-2 loop iterations. -/
structure ClickEnv where
  waitOk : Bool
  firstClick : ClickOutcome
  t0 : Phase2Try
  t1 : Phase2Try
  t2 : Phase2Try
deriving DecidableEq, Repr, Fintype

/-- Observable result of `click_element`: the exception escaping to the
caller (if any), whether some click attempt landed, how many phase-2
attempts were begun, and how many fresh `find_element` resolutions the
phase-2 loop performed. -/
structure ClickResult where
  raised : Option Exc
  clicked : Bool
  attempts : Nat
  locates : Nat
deriving DecidableEq, Repr

/-- Phase 1 of `click_element` (lines 15–29 of `igos_webdriver.py`): returns
the escaping exception, if any, and whether the phase-1 click landed.
`TimeoutException` on the wait is caught (printed only); on a clickable
element the click's `ElementClickInterceptedException` is caught (printed,
scrolled, slept — not retried), while a stale handle raises. -/
def phase1 (e : ClickEnv) : Option Exc × Bool :=
  if e.waitOk then
    match e.firstClick with
    | .ok => (none, true)
    | .intercepted => (none, false)
    | .stale => (some .staleExc, false)
  else (none, false)

/-- One iteration of the phase-2 loop body (lines 31–39): re-locate the
element fresh from the locator and click it.  `.ok true` means the click
landed (`break`); `.ok false` means it was intercepted, which is caught
(print, scroll to top, sleep) and the loop continues; a missing element or
a stale handle raises out of the whole call. -/
def tryStep (t : Phase2Try) : Except Exc Bool :=
  if t.found then
    match t.click with
    | .ok => .ok true
    | .intercepted => .ok false
    | .stale => .error .staleExc
  else .error .notFoundExc

/-- `Chrome.click_element` of `igos_webdriver.py`: phase 1, then — whatever
phase 1 printed — up to three further attempts, each locating a fresh
handle, stopping at the first landed click. -/
def click_element (e : ClickEnv) : ClickResult :=
  match phase1 e with
  | (some exc, c) => ⟨some exc, c, 0, 0⟩
  | (none, c1) =>
    match tryStep e.t0 with
    | .error x => ⟨some x, c1, 1, 1⟩
    | .ok true => ⟨none, true, 1, 1⟩
    | .ok false =>
      match tryStep e.t1 with
      | .error x => ⟨some x, c1, 2, 2⟩
      | .ok true => ⟨none, true, 2, 2⟩
      | .ok false =>
        match tryStep e.t2 with
        | .error x => ⟨some x, c1, 3, 3⟩
        | .ok true => ⟨none, true, 3, 3⟩
        | .ok false => ⟨none, c1, 3, 3⟩

/-- Claim C2: whenever the only adverse events are click interceptions and
a clickability timeout (no stale handles, every phase-2 locate finds the
element), `click_element` raises nothing; it begins at most 3 phase-2
attempts, each backed by its own fresh locate; and the loop stops at the
first phase-2 attempt whose click lands.  When all attempts are intercepted
it still returns normally with no exception. -/
theorem click_element_c2 (e : ClickEnv)
    (h0 : e.firstClick ≠ ClickOutcome.stale)
    (h1 : e.t0.found = true ∧ e.t0.click ≠ ClickOutcome.stale)
    (h2 : e.t1.found = true ∧ e.t1.click ≠ ClickOutcome.stale)
    (h3 : e.t2.found = true ∧ e.t2.click ≠ ClickOutcome.stale) :
    (click_element e).raised = none
    ∧ (click_element e).attempts ≤ 3
    ∧ (click_element e).locates = (click_element e).attempts
    ∧ (e.t0.click = ClickOutcome.ok →
        (click_element e).attempts = 1 ∧ (click_element e).clicked = true)
    ∧ (e.t0.click ≠ ClickOutcome.ok → e.t1.click = ClickOutcome.ok →
        (click_element e).attempts = 2 ∧ (click_element e).clicked = true)
    ∧ (e.t0.click ≠ ClickOutcome.ok → e.t1.click ≠ ClickOutcome.ok →
        e.t2.click = ClickOutcome.ok →
        (click_element e).attempts = 3 ∧ (click_element e).clicked = true) := by
  obtain ⟨w, fc, ⟨f0, c0⟩, ⟨f1, c1⟩, ⟨f2, c2⟩⟩ := e
  cases w <;> cases fc <;> cases f0 <;> cases c0 <;> cases f1 <;> cases c1 <;>
      cases f2 <;> cases c2 <;>
    simp_all [click_element, phase1, tryStep]

/-- Concrete run of `click_element_c2`: the wait times out, and the first
two phase-2 clicks are intercepted before the third lands. -/
theorem click_element_c2_witness :
    (click_element ⟨false, ClickOutcome.intercepted,
        ⟨true, ClickOutcome.intercepted⟩, ⟨true, ClickOutcome.intercepted⟩,
        ⟨true, ClickOutcome.ok⟩⟩).raised = none
    ∧ (click_element ⟨false, ClickOutcome.intercepted,
        ⟨true, ClickOutcome.intercepted⟩, ⟨true, ClickOutcome.intercepted⟩,
        ⟨true, ClickOutcome.ok⟩⟩).attempts ≤ 3 := by
  have h := click_element_c2 ⟨false, ClickOutcome.intercepted,
      ⟨true, ClickOutcome.intercepted⟩, ⟨true, ClickOutcome.intercepted⟩,
      ⟨true, ClickOutcome.ok⟩⟩ (by decide) (by decide) (by decide) (by decide)
  exact ⟨h.1, h.2.1⟩

/-! ### Open-positions snapshot (`portfolio.py`, `Portfolio.portfolio`)

`portfolio` counts the XPath matches for `//*[@id="opTable-1"]/tbody/tr/td[1]`
and parses the table into rows of cell text.  If the count is zero, or the
first cell of the first row lower-cases to the literal
`"you have no open positions."` (note the trailing period in the source),
it warns `'Portfolio is empty'` once and returns `None`.  Otherwise it binds
the fixed 16-column schema, sets the symbol column (cell 0, kept verbatim)
as the index, and returns the snapshot.  The `'df'` and `'dict'` return
shapes carry the same keyed rows (`to_dict('index')`), so the model returns
the keyed row list for either shape, paired with the warnings emitted. -/

/-- Python's `str.lower`, character-wise, as the source applies it to a
rendered cell; defined by structural recursion over the character list so
that concrete tables evaluate inside the kernel. -/
def lowerStr (s : String) : String := ⟨s.data.map Char.toLower⟩

/-- Python's `str.upper`, character-wise, as the source applies it to query
symbols before comparing with stored data. -/
def upperStr (s : String) : String := ⟨s.data.map Char.toUpper⟩

/-- The empty-portfolio sentinel literal compared against in the source —
with its trailing period, after lower-casing the rendered cell. -/
def sentinelText : String := "you have no open positions."

/-- Rendered state of the open-positions table: the number of
`tbody/tr/td[1]` matches and the parsed rows of cell text. -/
structure PortfolioPage where
  symbolCellCount : Nat
  rows : List (List String)
deriving DecidableEq, Repr

/-- `df.loc[0, 0]`: the first cell of the first parsed row. -/
def firstCell (rows : List (List String)) : String := (rows.headD []).headD ""

/-- The emptiness test of `portfolio`:
`len(portfolio_symbols) == 0 or df.loc[0, 0].lower() == "you have no open positions."`. -/
def portfolioIsEmpty (pg : PortfolioPage) : Bool :=
  pg.symbolCellCount == 0 || lowerStr (firstCell pg.rows) == sentinelText

/-- `Portfolio.portfolio`: the keyed snapshot (key = cell 0 verbatim, value
= the remaining 15 schema cells) or `none`, together with the warnings
emitted during the call. -/
def portfolio (pg : PortfolioPage) :
    Option (List (String × List String)) × List String :=
  if portfolioIsEmpty pg then (none, ["Portfolio is empty"])
  else (some (pg.rows.map fun r => (r.headD "", r.drop 1)), [])

/-- The `overnight` column is the last of the 15 value cells (raw column 15
of the 16-column schema); the source keeps a row intraday iff this cell is
not the literal `"Yes"` (`filt = df['overnight'] == 'Yes'; df.loc[~filt]`). -/
def overnightFlag (v : List String) : Bool := v.getD 14 "" == "Yes"

/-- `Portfolio.open_orders`: the intraday restriction of the snapshot, or
the empty list when the snapshot is the Empty sentinel. -/
def open_orders (pg : PortfolioPage) : List (String × List String) :=
  match (portfolio pg).1 with
  | none => []
  | some snap => snap.filter fun kv => !(overnightFlag kv.2)

/-- The key sequence of the snapshot (empty when the snapshot is Empty). -/
def portfolioKeys (pg : PortfolioPage) : List String :=
  match (portfolio pg).1 with
  | none => []
  | some snap => snap.map Prod.fst

/-- Number of positions in the snapshot (0 when the snapshot is Empty). -/
def positionsCount (pg : PortfolioPage) : Nat :=
  match (portfolio pg).1 with
  | none => 0
  | some snap => snap.length

/-- `Portfolio.invested`: `False` on an Empty snapshot, else membership of
the upper-cased query among the snapshot keys. -/
def invested (pg : PortfolioPage) (symbol : String) : Bool :=
  match (portfolio pg).1 with
  | none => false
  | some snap => (snap.map Prod.fst).contains (upperStr symbol)

/-- A one-row table whose first cell is the sentinel text of the claim —
without the trailing period the source compares against. -/
def sentinelRowNoDot : List String :=
  "you have no open positions" :: List.replicate 15 ""

/-- Page rendering `sentinelRowNoDot` as its single row. -/
def noDotPage : PortfolioPage := ⟨1, [sentinelRowNoDot]⟩

/-- Claim C3 counterexample: a rendered table whose first cell is a
case-insensitive match of the claim's sentinel "you have no open positions"
(no trailing period).  The source compares against the literal with a
trailing period, so `portfolio` does not take the Empty branch: it returns
a one-row data snapshot built from the sentinel text and warns nothing. -/
theorem positions_sentinel_cex :
    lowerStr (firstCell noDotPage.rows) = "you have no open positions"
    ∧ (portfolio noDotPage).1
        = some [("you have no open positions", List.replicate 15 "")]
    ∧ (portfolio noDotPage).2 = [] := by decide

/-- Claim C3 (amended): the sentinel the source matches is
`"you have no open positions."` with a trailing period.  For every page
with zero symbol cells, or whose first cell lower-cases to that literal,
`portfolio` returns the Empty sentinel and emits exactly one warning, and
never returns a data snapshot. -/
theorem positions_sentinel_amended (pg : PortfolioPage)
    (h : pg.symbolCellCount = 0 ∨ lowerStr (firstCell pg.rows) = sentinelText) :
    (portfolio pg).1 = none ∧ (portfolio pg).2 = ["Portfolio is empty"] := by
  have hb : portfolioIsEmpty pg = true := by
    rcases h with h | h <;> simp [portfolioIsEmpty, h]
  simp [portfolio, hb]

/-- Concrete run of `positions_sentinel_amended` on a page with zero symbol
cells. -/
theorem positions_sentinel_amended_witness :
    (portfolio ⟨0, []⟩).1 = none
    ∧ (portfolio ⟨0, []⟩).2 = ["Portfolio is empty"] :=
  positions_sentinel_amended ⟨0, []⟩ (Or.inl rfl)

/-- A one-row table rendering its symbol in lower case. -/
def lowercaseSymbolPage : PortfolioPage :=
  ⟨1, ["aapl" :: (List.replicate 14 "x" ++ ["No"])]⟩

/-- Claim C8 counterexample: a table rendering its symbol as "aapl" is
stored under the key "aapl" verbatim, not under its upper-casing "AAPL" —
the snapshot is not keyed by upper-cased symbol. -/
theorem positions_keys_cex :
    portfolioKeys lowercaseSymbolPage = ["aapl"]
    ∧ upperStr "aapl" = "AAPL"
    ∧ ("aapl" : String) ≠ "AAPL" := by decide

/-- Claim C8 (amended): every non-Empty snapshot is keyed by the rendered
symbol text verbatim; the key set agrees with the upper-casings exactly
when every rendered symbol is already upper-case-invariant. -/
theorem positions_keys_amended (pg : PortfolioPage)
    (snap : List (String × List String))
    (h : (portfolio pg).1 = some snap) :
    snap.map Prod.fst = pg.rows.map (fun r => r.headD "")
    ∧ ((∀ r ∈ pg.rows, upperStr (r.headD "") = r.headD "") →
        snap.map Prod.fst = pg.rows.map (fun r => upperStr (r.headD ""))) := by
  cases hb : portfolioIsEmpty pg with
  | true => simp [portfolio, hb] at h
  | false =>
    simp only [portfolio, hb, Bool.false_eq_true, if_false, Option.some.injEq] at h
    subst h
    constructor
    · simp [Function.comp]
    · intro hall
      simp only [List.map_map, Function.comp]
      exact List.map_congr_left fun r hr => (hall r hr).symm

/-- A well-formed one-position page with an upper-case rendered symbol. -/
def onePositionPage : PortfolioPage :=
  ⟨1, ["AAPL" :: (List.replicate 14 "x" ++ ["No"])]⟩

/-- Concrete run of `positions_keys_amended` on `onePositionPage`. -/
theorem positions_keys_amended_witness :
    [("AAPL", List.replicate 14 "x" ++ ["No"])].map Prod.fst
        = onePositionPage.rows.map (fun r => r.headD "")
    ∧ ((∀ r ∈ onePositionPage.rows, upperStr (r.headD "") = r.headD "") →
        [("AAPL", List.replicate 14 "x" ++ ["No"])].map Prod.fst
          = onePositionPage.rows.map (fun r => upperStr (r.headD ""))) :=
  positions_keys_amended onePositionPage _ (by decide)

/-- Claim C6: `open_orders` is the snapshot restricted to the rows whose
overnight flag is off; an Empty snapshot yields the empty list (not the
Empty sentinel); and its length never exceeds the snapshot's. -/
theorem open_orders_c6 (pg : PortfolioPage) :
    ((portfolio pg).1 = none → open_orders pg = [])
    ∧ (∀ snap, (portfolio pg).1 = some snap →
        ∀ kv, kv ∈ open_orders pg ↔ kv ∈ snap ∧ overnightFlag kv.2 = false)
    ∧ (open_orders pg).length ≤ positionsCount pg := by
  refine ⟨?_, ?_, ?_⟩
  · intro h; simp [open_orders, h]
  · intro snap h kv
    simp [open_orders, h, List.mem_filter]
  · unfold open_orders positionsCount
    cases hp : (portfolio pg).1 with
    | none => simp
    | some snap => simpa using List.length_filter_le _ snap

/-- Concrete run of `open_orders_c6` on `onePositionPage`. -/
theorem open_orders_c6_witness :
    (open_orders onePositionPage).length ≤ positionsCount onePositionPage :=
  (open_orders_c6 onePositionPage).2.2

/-- Claim C7: `invested` is true exactly when the snapshot is non-Empty and
holds the upper-cased query symbol among its keys; in particular it is
false when the upper-cased symbol is absent, and false (not a failure) on
an Empty portfolio. -/
theorem invested_c7 (pg : PortfolioPage) (s : String) :
    (invested pg s = true ↔
      ((portfolio pg).1 ≠ none ∧ upperStr s ∈ portfolioKeys pg))
    ∧ (upperStr s ∉ portfolioKeys pg → invested pg s = false)
    ∧ ((portfolio pg).1 = none → invested pg s = false) := by
  have main : invested pg s = true ↔
      ((portfolio pg).1 ≠ none ∧ upperStr s ∈ portfolioKeys pg) := by
    unfold invested portfolioKeys
    cases hp : (portfolio pg).1 with
    | none => simp
    | some snap => simp [List.contains, List.elem_iff]
  refine ⟨main, ?_, ?_⟩
  · intro hnot
    cases hinv : invested pg s
    · rfl
    · exact absurd (main.mp hinv).2 hnot
  · intro h
    unfold invested
    rw [h]

/-- Concrete run of `invested_c7`: a lower-case query against
`onePositionPage`, whose snapshot key is "AAPL". -/
theorem invested_c7_witness :
    invested onePositionPage "aapl" = true ↔
      ((portfolio onePositionPage).1 ≠ none
        ∧ upperStr "aapl" ∈ portfolioKeys onePositionPage) :=
  (invested_c7 onePositionPage "aapl").1

/-! ### Active orders (`portfolio.py`, `Portfolio.get_active_orders`)

The source first collects the table rows carrying an `order-id` DOM
attribute (`//*[@id="aoTable-1"]/tbody/tr[@order-id]`); if there are none
it warns `'There are no active orders'` and returns the plain list `[]`.
Otherwise it parses the table, drops the button-only first column, binds
the fixed 12-column schema, attaches the attribute-sourced ids as an
`order_id` column, applies the optional symbol and type filters, and —
when the filtered frame is empty — warns
`'There are no FILTERED active orders'` and again returns `[]`.  A
non-empty filtered frame is returned as a DataFrame or, for
`return_type='dict'`, as `fdf.to_dict('index')`.  The model represents the
page by the rows carrying the attribute (the spec's data-integrity
invariant: every extracted ActiveOrder carries a non-empty order-id). -/

/-- One rendered active-orders row carrying the `order-id` DOM attribute.
The model keeps the columns some modelled operation consults (`symbol`,
`type`, the attribute-sourced `order_id`, the display-only `ref_number`,
and `side`); the remaining schema columns (qty, open, exec, status, tif,
limit, stop, placed) carry no behaviour in any claim and are collapsed
into `rest`. -/
structure AORow where
  order_id : String
  ref_number : String
  symbol : String
  side : String
  type : String
  rest : List String
deriving DecidableEq, Repr

/-- Return value of `get_active_orders`: the plain Python list `[]` on the
two empty paths, or a DataFrame / nested dict of the filtered rows. -/
inductive AOResult where
  | emptyList
  | df (rows : List AORow)
  | dictMap (rows : List AORow)
deriving DecidableEq, Repr

/-- Python truthiness of an optional string parameter (`if symbol:`):
`None` and the empty string are falsy. -/
def pyTruthy : Option String → Bool
  | none => false
  | some s => !(s == "")

/-- The AND-combined filter of `get_active_orders`: exact equality on the
stored symbol when a truthy symbol filter is given, and exact equality on
the rendered type column when a truthy order-type filter is given. -/
def aoFilter (symbol order_type : Option String) (r : AORow) : Bool :=
  (if pyTruthy symbol then r.symbol == symbol.getD "" else true)
  && (if pyTruthy order_type then r.type == order_type.getD "" else true)

/-- Warning emitted when no row carries an order-id attribute. -/
def noOrdersMsg : String := "There are no active orders"

/-- Warning emitted when the AND-combined filter removes every row. -/
def noFilteredMsg : String := "There are no FILTERED active orders"

/-- `Portfolio.get_active_orders`: result together with the warnings
emitted during the call. -/
def get_active_orders (page : List AORow) (symbol order_type : Option String)
    (return_type : String) : AOResult × List String :=
  if page.length = 0 then (.emptyList, [noOrdersMsg])
  else
    let fdf := page.filter (aoFilter symbol order_type)
    if fdf.length = 0 then (.emptyList, [noFilteredMsg])
    else if return_type == "dict" then (.dictMap fdf, []) else (.df fdf, [])

/-- Claim C4: with no attribute-carrying row `get_active_orders` emits the
no-active-orders notice and returns empty; with rows but an empty filtered
result it emits the distinct no-filtered notice and returns empty; and the
filter is the AND of exact symbol match and exact type match. -/
theorem get_active_orders_c4 (page : List AORow) (sym ot : Option String)
    (rt : String) :
    (page = [] → get_active_orders page sym ot rt = (.emptyList, [noOrdersMsg]))
    ∧ (page ≠ [] → page.filter (aoFilter sym ot) = [] →
        get_active_orders page sym ot rt = (.emptyList, [noFilteredMsg]))
    ∧ noOrdersMsg ≠ noFilteredMsg
    ∧ (∀ r, aoFilter sym ot r = true ↔
        ((pyTruthy sym = true → r.symbol = sym.getD "")
          ∧ (pyTruthy ot = true → r.type = ot.getD ""))) := by
  refine ⟨?_, ?_, by decide, ?_⟩
  · intro h; subst h; simp [get_active_orders]
  · intro hne hf
    have hl : ¬ page.length = 0 := by
      simpa [List.length_eq_zero] using hne
    simp [get_active_orders, hl, hf]
  · intro r
    unfold aoFilter
    cases hs : pyTruthy sym <;> cases ht : pyTruthy ot <;> simp

/-- Concrete run of `get_active_orders_c4` on an empty page. -/
theorem get_active_orders_c4_witness :
    get_active_orders [] none none "df" = (.emptyList, [noOrdersMsg]) :=
  (get_active_orders_c4 [] none none "df").1 rfl

/-- Claim C10: both empty paths return the plain list `[]` whatever the
requested return type, while a non-empty filtered result is a DataFrame
for `'df'` and a nested dict for `'dict'`; the empty-result constructor is
distinct from both non-empty ones. -/
theorem get_active_orders_c10 (page : List AORow) (sym ot : Option String) :
    (∀ rt, page.filter (aoFilter sym ot) = [] →
        (get_active_orders page sym ot rt).1 = .emptyList)
    ∧ (page.filter (aoFilter sym ot) ≠ [] →
        (get_active_orders page sym ot "df").1
            = .df (page.filter (aoFilter sym ot))
        ∧ (get_active_orders page sym ot "dict").1
            = .dictMap (page.filter (aoFilter sym ot)))
    ∧ (∀ rows, AOResult.emptyList ≠ .df rows ∧ AOResult.emptyList ≠ .dictMap rows) := by
  refine ⟨?_, ?_, fun rows => ⟨by simp, by simp⟩⟩
  · intro rt hf
    rcases eq_or_ne page [] with hp | hp
    · subst hp; simp [get_active_orders]
    · have hl : ¬ page.length = 0 := by
        simpa [List.length_eq_zero] using hp
      simp [get_active_orders, hl, hf]
  · intro hf
    have hp : page ≠ [] := by
      intro h; subst h; simp at hf
    have hl : ¬ page.length = 0 := by
      simpa [List.length_eq_zero] using hp
    have hfl : ¬ (page.filter (aoFilter sym ot)).length = 0 := by
      simpa [List.length_eq_zero] using hf
    constructor <;> simp [get_active_orders, hl, hfl]

/-- A concrete active-orders row: a pending AAPL limit order. -/
def aoRowA : AORow := ⟨"S.100", "100", "AAPL", "B", "LMT", []⟩

/-- Concrete run of `get_active_orders_c10` on an empty page. -/
theorem get_active_orders_c10_witness :
    (get_active_orders [] none none "dict").1 = AOResult.emptyList :=
  (get_active_orders_c10 [] none none).1 "dict" rfl

/-! ### Symbol lookup in active orders
(`portfolio.py`, `Portfolio.symbol_present_in_active_orders`)

The source runs `symbol.upper() in self.get_active_orders()['symbol'].values`.
When there are no active orders, `get_active_orders()` returns the plain
list `[]`, and `[]['symbol']` raises `TypeError: list indices must be
integers or slices, not str` — modelled as the `.error` branch. -/

/-- The `TypeError` Python raises when the empty-result list is indexed
with the string `'symbol'`. -/
def typeErrorMsg : String :=
  "TypeError: list indices must be integers or slices, not str"

/-- `Portfolio.symbol_present_in_active_orders`. -/
def symbol_present_in_active_orders (page : List AORow) (symbol : String) :
    Except String Bool :=
  match (get_active_orders page none none "df").1 with
  | .emptyList => .error typeErrorMsg
  | .df rows => .ok ((rows.map AORow.symbol).contains (upperStr symbol))
  | .dictMap rows => .ok ((rows.map AORow.symbol).contains (upperStr symbol))

/-- Claim C5: on a page with no active orders the declared `-> bool`
predicate does not return `False` — it raises a `TypeError` (the empty
result is a plain list, which cannot be indexed by the column name).  On a
non-empty page it does return the membership of the upper-cased symbol. -/
theorem symbol_present_c5 :
    symbol_present_in_active_orders [] "AAPL" = .error typeErrorMsg
    ∧ symbol_present_in_active_orders [aoRowA] "aapl" = .ok true
    ∧ symbol_present_in_active_orders [aoRowA] "msft" = .ok false :=
  ⟨rfl, rfl, rfl⟩

/-! ### Order cancellation (`portfolio.py`, `Portfolio.cancel_active_order`)

The source upper-cases the symbol, switches to the active-orders tab via
the resilient click driver (a pure UI navigation preceding every read and
click of the workflow, with no bearing on the per-key behaviour), queries
`get_active_orders(symbol, order_type)` and returns if the result is
empty.  It then strips the literal `"S."` from each order id
(`x.replace('S.', '')`) and, for each stripped key, locates the row-scoped
CANCEL cell — `NoSuchElementException` is caught, printed and the loop
continues — and clicks it with a bare `WebElement.click()`, catching only
`StaleElementReferenceException` (printed, loop continues).  The bare
click is not routed through `Chrome.click_element`, so an
`ElementClickInterceptedException` at this point escapes the whole call. -/

/-- Per-key UI behaviour during cancellation: whether the row-scoped CANCEL
cell is located, and how the bare click on it turns out. -/
structure CancelUI where
  found : Bool
  click : ClickOutcome
deriving DecidableEq, Repr

/-- Observable outcome of the cancellation batch: the keys whose loop
iteration ran to completion, the messages printed, and the exception that
escaped, if any. -/
structure CancelState where
  handled : List String
  logs : List String
  raised : Option Exc
deriving DecidableEq, Repr

/-- Message printed when the CANCEL cell of an order cannot be located. -/
def notFoundLog (id : String) : String :=
  "Could not find cancel button for order " ++ id

/-- Message printed when the click hits a stale CANCEL cell (spelling as in
the source). -/
def staleLog (id : String) : String :=
  "cancel button is unavailalble " ++ id

/-- Python's `x.replace('S.', '')`: remove every non-overlapping occurrence
of the two-character pattern, left to right; structural recursion over the
character list so concrete keys evaluate inside the kernel. -/
def replaceSDot : List Char → List Char
  | [] => []
  | 'S' :: '.' :: rest => replaceSDot rest
  | c :: rest => c :: replaceSDot rest

/-- The cancellation key derived from an order id. -/
def stripS (s : String) : String := ⟨replaceSDot s.data⟩

/-- The per-key loop of `cancel_active_order`: locate the CANCEL cell
(`NoSuchElementException` caught: print and continue), then bare-click it
(`StaleElementReferenceException` caught: print and continue; an
interception is not caught and aborts the batch). -/
def cancelLoop (ui : String → CancelUI) : List String → CancelState
  | [] => ⟨[], [], none⟩
  | id :: rest =>
    if (ui id).found then
      match (ui id).click with
      | .ok =>
        let s := cancelLoop ui rest
        ⟨id :: s.handled, s.logs, s.raised⟩
      | .stale =>
        let s := cancelLoop ui rest
        ⟨id :: s.handled, staleLog id :: s.logs, s.raised⟩
      | .intercepted => ⟨[], [], some .interceptedExc⟩
    else
      let s := cancelLoop ui rest
      ⟨id :: s.handled, notFoundLog id :: s.logs, s.raised⟩

/-- `Portfolio.cancel_active_order`: query the filtered active orders with
the upper-cased symbol, return silently when nothing matches, and run the
per-key cancellation loop over the stripped order ids. -/
def cancel_active_order (page : List AORow) (ui : String → CancelUI)
    (symbol : String) (order_type : Option String) : CancelState :=
  match (get_active_orders page (some (upperStr symbol)) order_type "df").1 with
  | .emptyList => ⟨[], [], none⟩
  | .df rows => cancelLoop ui (rows.map fun r => stripS r.order_id)
  | .dictMap rows => cancelLoop ui (rows.map fun r => stripS r.order_id)

/-- A second concrete active-orders row: a pending AAPL market order. -/
def aoRowB : AORow := ⟨"S.101", "101", "AAPL", "S", "MKT", []⟩

/-- UI behaviour in which every bare click is intercepted. -/
def interceptUI : String → CancelUI := fun _ => ⟨true, ClickOutcome.intercepted⟩

/-- Claim C1 counterexample: with two matched AAPL orders whose CANCEL
cells are present but whose bare clicks are intercepted, the interception
escapes `cancel_active_order` and aborts the batch before any key is
handled — a transient UI-interaction failure does propagate to the caller,
because the cancel click is a bare `WebElement.click()`, not a resilient
`click_element` call. -/
theorem cancel_intercepted_cex :
    (cancel_active_order [aoRowA, aoRowB] interceptUI "AAPL" none).raised
        = some Exc.interceptedExc
    ∧ (cancel_active_order [aoRowA, aoRowB] interceptUI "AAPL" none).handled
        = [] :=
  ⟨rfl, rfl⟩

/-- `get_active_orders` with the default `'df'` shape, as a single
conditional on the filtered row list. -/
theorem get_active_orders_df_cases (page : List AORow) (s ot : Option String) :
    (get_active_orders page s ot "df").1
      = (if page.filter (aoFilter s ot) = [] then AOResult.emptyList
         else .df (page.filter (aoFilter s ot))) := by
  rcases eq_or_ne page [] with hp | hp
  · subst hp; simp [get_active_orders]
  · have hl : ¬ page.length = 0 := by
      simpa [List.length_eq_zero] using hp
    by_cases hf : page.filter (aoFilter s ot) = []
    · simp [get_active_orders, hl, hf]
    · have hfl : ¬ (page.filter (aoFilter s ot)).length = 0 := by
        simpa [List.length_eq_zero] using hf
      simp [get_active_orders, hl, hfl, hf]

/-- When no click in the batch is intercepted, the cancellation loop
raises nothing, completes every key in order, and prints exactly the
missing-control and stale-click messages. -/
theorem cancelLoop_no_intercept (ui : String → CancelUI)
    (h : ∀ id, (ui id).click ≠ ClickOutcome.intercepted) (ids : List String) :
    (cancelLoop ui ids).raised = none
    ∧ (cancelLoop ui ids).handled = ids
    ∧ (cancelLoop ui ids).logs = ids.filterMap fun id =>
        if (ui id).found = false then some (notFoundLog id)
        else if (ui id).click = ClickOutcome.stale then some (staleLog id)
        else none := by
  induction ids with
  | nil => simp [cancelLoop]
  | cons id rest ih =>
    have hid := h id
    cases hf : (ui id).found <;> cases hc : (ui id).click <;>
      simp_all [cancelLoop]

/-- Claim C1 (amended): as long as no bare cancel click is intercepted —
missing CANCEL cells and stale clicks are allowed anywhere in the batch —
`cancel_active_order` raises nothing, processes every matched key in
order, and logs each missing or stale cancel target.  (The unamended
claim fails because the bare click is not retried by the Resilient Click
Driver: see `cancel_intercepted_cex`.) -/
theorem cancel_active_order_amended (page : List AORow)
    (ui : String → CancelUI) (symbol : String) (ot : Option String)
    (h : ∀ id, (ui id).click ≠ ClickOutcome.intercepted) :
    (cancel_active_order page ui symbol ot).raised = none
    ∧ (cancel_active_order page ui symbol ot).handled
        = (page.filter (aoFilter (some (upperStr symbol)) ot)).map
            (fun r => stripS r.order_id)
    ∧ (cancel_active_order page ui symbol ot).logs
        = ((page.filter (aoFilter (some (upperStr symbol)) ot)).map
            (fun r => stripS r.order_id)).filterMap (fun id =>
              if (ui id).found = false then some (notFoundLog id)
              else if (ui id).click = ClickOutcome.stale then some (staleLog id)
              else none) := by
  have hdf := get_active_orders_df_cases page (some (upperStr symbol)) ot
  by_cases hf : page.filter (aoFilter (some (upperStr symbol)) ot) = []
  · rw [if_pos hf] at hdf
    unfold cancel_active_order
    rw [hdf, hf]
    simp [cancelLoop]
  · rw [if_neg hf] at hdf
    unfold cancel_active_order
    rw [hdf]
    exact cancelLoop_no_intercept ui h _

/-- UI behaviour in which no CANCEL cell can be located. -/
def notFoundUI : String → CancelUI := fun _ => ⟨false, ClickOutcome.ok⟩

/-- Concrete run of `cancel_active_order_amended`: a matched order whose
CANCEL cell has disappeared is logged and the batch completes without an
exception. -/
theorem cancel_active_order_amended_witness :
    (cancel_active_order [aoRowA] notFoundUI "aapl" none).raised = none
    ∧ (cancel_active_order [aoRowA] notFoundUI "aapl" none).handled
        = ([aoRowA].filter (aoFilter (some (upperStr "aapl")) none)).map
            (fun r => stripS r.order_id)
    ∧ (cancel_active_order [aoRowA] notFoundUI "aapl" none).logs
        = (([aoRowA].filter (aoFilter (some (upperStr "aapl")) none)).map
            (fun r => stripS r.order_id)).filterMap (fun id =>
              if (notFoundUI id).found = false then some (notFoundLog id)
              else if (notFoundUI id).click = ClickOutcome.stale then
                some (staleLog id)
              else none) :=
  cancel_active_order_amended [aoRowA] notFoundUI "aapl" none
    (fun id => by simp [notFoundUI])


/-! ### Locate inventory (`portfolio.py`, `Portfolio.get_inventory`)

The source walks every `tr` of the locate-inventory table; per row it takes
the `td` cells, falling back to `th` cells when there are none; collects
cell text skipping the fixed index 4
(`[cell.text for idx, cell in enumerate(cells) if idx != 4]`); removes rows
that yielded no cells; and finally builds
`pd.DataFrame(all_row_data, columns=headers)` against the fixed five-name
header list.  That constructor ingests the list of lists as an object array
whose width is the longest record (shorter records padded with missing
values), and raises `ValueError` whenever that width differs from the
number of header names — the spec's fatal SchemaMismatch.  An empty row
list yields an empty frame without the width check. -/

/-- One `tr` of the locate-inventory table: its `td` cell texts and its
`th` cell texts. -/
structure InvRow where
  tds : List String
  ths : List String
deriving DecidableEq, Repr

/-- The cell list the source iterates for a row: the `td` cells, or the
`th` cells when the row has no `td`. -/
def invCells (r : InvRow) : List String :=
  if r.tds.isEmpty then r.ths else r.tds

/-- `[cell.text for idx, cell in enumerate(cells) if idx != 4]`. -/
def dropIdx4 (cells : List String) : List String :=
  (cells.enum.filter fun p => p.1 != 4).map Prod.snd

/-- The fixed header list bound in the source:
`['Symbol', 'Type', 'Available', 'Unavailable', 'Action']`. -/
def invHeaders : List String :=
  ["Symbol", "Type", "Available", "Unavailable", "Action"]

/-- Width under which the DataFrame constructor ingests a list of lists:
the length of its longest record (0 when there are none). -/
def maxWidth (data : List (List String)) : Nat :=
  data.foldr (fun r m => max r.length m) 0

/-- The constructor's object-array ingestion pads records shorter than the
data width with missing values (NaN). -/
def padTo (w : Nat) (r : List String) : List String :=
  r ++ List.replicate (w - r.length) "NaN"

/-- Result of `get_inventory`: the constructed DataFrame's records, or the
`ValueError` pandas raises when the header count does not match the data
width — `valueError p w` stands for the message "p columns passed, passed
data had w columns". -/
inductive InvResult where
  | frame (records : List (List String))
  | valueError (columnsPassed : Nat) (dataWidth : Nat)
deriving DecidableEq, Repr

/-- `Portfolio.get_inventory`: per-row extraction with the index-4 cell
excluded, removal of rows that yielded no cells, then
`pd.DataFrame(all_row_data, columns=headers)`: an empty row list gives an
empty frame; otherwise the data width must equal the number of header
names (5) — records narrower than the width are NaN-padded — and any
other width raises `ValueError`. -/
def get_inventory (rows : List InvRow) : InvResult :=
  let data := (rows.map fun r => dropIdx4 (invCells r)).filter
    fun row => !row.isEmpty
  if data.isEmpty then .frame []
  else if maxWidth data = invHeaders.length then
    .frame (data.map (padTo (maxWidth data)))
  else .valueError invHeaders.length (maxWidth data)

/-- Keeping the entries of an index-enumerated list whose index differs
from `k` drops exactly the element at position `k`. -/
theorem enumFrom_filter_ne {α : Type} (k : Nat) (cells : List α) :
    ∀ n : Nat,
      ((List.enumFrom n cells).filter fun p => p.1 != k).map Prod.snd
        = if k < n then cells
          else cells.take (k - n) ++ cells.drop (k - n + 1) := by
  induction cells with
  | nil => intro n; simp
  | cons a cells ih =>
    intro n
    have step : List.enumFrom n (a :: cells)
        = (n, a) :: List.enumFrom (n + 1) cells := rfl
    rw [step, List.filter_cons]
    by_cases hnk : n = k
    · subst hnk
      simp only [bne_self_eq_false, Bool.false_eq_true, if_false]
      rw [ih (n + 1), if_pos (by omega), if_neg (lt_irrefl n), Nat.sub_self]
      simp
    · have hne : ((n, a).1 != k) = true := by simpa using hnk
      rw [if_pos hne, List.map_cons, ih (n + 1)]
      by_cases hkn : k < n
      · rw [if_pos (by omega), if_pos hkn]
      · have hlt : n < k := by omega
        rw [if_neg (by omega), if_neg hkn]
        obtain ⟨m, hm⟩ : ∃ m, k - n = m + 1 := ⟨k - n - 1, by omega⟩
        rw [hm]
        have h2 : k - (n + 1) = m := by omega
        rw [h2]
        simp [List.take_succ_cons, List.drop_succ_cons]

/-- The index-4 exclusion keeps the first four cells and everything from
the sixth on. -/
theorem dropIdx4_eq (cells : List String) :
    dropIdx4 cells = cells.take 4 ++ cells.drop 5 := by
  have h := enumFrom_filter_ne (α := String) 4 cells 0
  simpa [dropIdx4, List.enum] using h

/-- A nonempty cell list stays nonempty after the index-4 exclusion. -/
theorem dropIdx4_ne_nil (cells : List String) (h : cells ≠ []) :
    dropIdx4 cells ≠ [] := by
  cases cells with
  | nil => exact absurd rfl h
  | cons a cs => simp [dropIdx4_eq]

/-- When every row yields at least one cell, the empty-row filter keeps
the extracted row data unchanged. -/
theorem inv_filter_keeps (rows : List InvRow)
    (h : ∀ r ∈ rows, invCells r ≠ []) :
    ((rows.map fun r => dropIdx4 (invCells r)).filter fun row => !row.isEmpty)
      = rows.map fun r => dropIdx4 (invCells r) := by
  rw [List.filter_eq_self]
  intro a ha
  obtain ⟨r, hr, rfl⟩ := List.mem_map.mp ha
  simpa using dropIdx4_ne_nil _ (h r hr)

/-- A list whose records all have length `w` has width `w` when nonempty. -/
theorem maxWidth_const (w : Nat) :
    ∀ data : List (List String), (∀ x ∈ data, x.length = w) → data ≠ [] →
      maxWidth data = w
  | [], _, hne => absurd rfl hne
  | x :: l, h, _ => by
    rcases eq_or_ne l [] with hl | hl
    · subst hl
      simp [maxWidth, h x (by simp)]
    · have ih := maxWidth_const w l (fun y hy => h y (by simp [hy])) hl
      simp only [maxWidth, List.foldr_cons] at ih ⊢
      rw [ih, h x (by simp)]
      simp

/-- The width of a list of records is bounded by any common length bound. -/
theorem maxWidth_le (w : Nat) :
    ∀ data : List (List String), (∀ x ∈ data, x.length ≤ w) →
      maxWidth data ≤ w
  | [], _ => by simp [maxWidth]
  | x :: l, h => by
    have ih := maxWidth_le w l (fun y hy => h y (by simp [hy]))
    simp only [maxWidth, List.foldr_cons] at ih ⊢
    exact max_le (h x (by simp)) ih

/-- Padding to a width the record already reaches changes nothing. -/
theorem padTo_of_le (w : Nat) (r : List String) (h : w ≤ r.length) :
    padTo w r = r := by
  unfold padTo
  rw [Nat.sub_eq_zero_of_le h]
  simp

/-- A data row of only four cells — the shape in which the index-4
action-column exclusion has nothing to remove and the post-drop width is 4. -/
def fourCellRow : InvRow := ⟨["AAPL", "Easy", "1000", "0"], []⟩

/-- A locate-inventory table of three such data rows. -/
def fourCellTable : List InvRow := [fourCellRow, fourCellRow, fourCellRow]

/-- Claim C9 counterexample: on a table of 3 data rows of 4 raw cells each,
`get_inventory` does not return 3 one-field-fewer records — the index-4
exclusion removes nothing, the post-drop data width is 4, and the
DataFrame constructor with its 5 header names raises `ValueError` (5
columns passed, passed data had 4 columns), so no records are returned at
all. -/
theorem get_inventory_c9_cex :
    (∀ r ∈ fourCellTable, (invCells r).length = 4)
    ∧ get_inventory fourCellTable = InvResult.valueError 5 4
    ∧ ∀ records, InvResult.valueError 5 4 ≠ InvResult.frame records := by
  refine ⟨by decide, by decide, fun records => by simp⟩

/-- Claim C9 (amended): `get_inventory` drops the index-4 cell from every
row, removes rows that yield zero cells, and then requires the post-drop
data width to be exactly 5 (the header count).  On a table whose rows each
have 6 raw cells it returns one record per row, each one field narrower
than its raw cell count; on a nonempty table whose rows each yield between
1 and 5 raw cells — where the post-drop width is at most 4 — it raises
`ValueError` instead of returning records; and a returned frame never
contains a zero-length record. -/
theorem get_inventory_c9_amended (rows : List InvRow) :
    ((∀ r ∈ rows, (invCells r).length = 6) →
      get_inventory rows
          = InvResult.frame (rows.map fun r => dropIdx4 (invCells r))
      ∧ (rows.map fun r => dropIdx4 (invCells r)).length = rows.length
      ∧ ∀ r ∈ rows, (dropIdx4 (invCells r)).length + 1 = (invCells r).length)
    ∧ (rows ≠ [] → (∀ r ∈ rows, invCells r ≠ [] ∧ (invCells r).length ≤ 5) →
      get_inventory rows
          = InvResult.valueError 5
              (maxWidth ((rows.map fun r => dropIdx4 (invCells r)).filter
                fun row => !row.isEmpty)))
    ∧ (∀ records, get_inventory rows = InvResult.frame records →
        [] ∉ records) := by
  refine ⟨?_, ?_, ?_⟩
  · intro h6
    have hne : ∀ r ∈ rows, invCells r ≠ [] := by
      intro r hr hnil
      have hlen := h6 r hr
      rw [hnil] at hlen
      simp at hlen
    have hkeep := inv_filter_keeps rows hne
    have hlen5 : ∀ a ∈ rows.map (fun r => dropIdx4 (invCells r)),
        a.length = 5 := by
      intro a ha
      obtain ⟨r, hr, rfl⟩ := List.mem_map.mp ha
      have h := h6 r hr
      rw [dropIdx4_eq, List.length_append, List.length_take,
        List.length_drop, h]
      decide
    refine ⟨?_, by rw [List.length_map], ?_⟩
    · simp only [get_inventory]
      rw [hkeep]
      rcases eq_or_ne rows [] with hr0 | hr0
      · subst hr0; simp
      · have hdne : rows.map (fun r => dropIdx4 (invCells r)) ≠ [] := by
          simpa using hr0
        have hmw : maxWidth (rows.map fun r => dropIdx4 (invCells r)) = 5 :=
          maxWidth_const 5 _ hlen5 hdne
        rw [if_neg (by simpa using hdne), hmw,
          if_pos (show (5 : Nat) = invHeaders.length from rfl)]
        congr 1
        calc (rows.map fun r => dropIdx4 (invCells r)).map (padTo 5)
            = (rows.map fun r => dropIdx4 (invCells r)).map id :=
              List.map_congr_left fun a ha => by
                rw [padTo_of_le 5 a (by rw [hlen5 a ha]), id]
          _ = rows.map fun r => dropIdx4 (invCells r) := List.map_id _
    · intro r hr
      have h := h6 r hr
      rw [dropIdx4_eq, List.length_append, List.length_take,
        List.length_drop, h]
      decide
  · intro hr0 hcells
    have hne : ∀ r ∈ rows, invCells r ≠ [] := fun r hr => (hcells r hr).1
    have hkeep := inv_filter_keeps rows hne
    have hle : ∀ a ∈ rows.map (fun r => dropIdx4 (invCells r)),
        a.length ≤ 4 := by
      intro a ha
      obtain ⟨r, hr, rfl⟩ := List.mem_map.mp ha
      have h5 := (hcells r hr).2
      rw [dropIdx4_eq, List.length_append, List.length_take, List.length_drop]
      omega
    have hdne : rows.map (fun r => dropIdx4 (invCells r)) ≠ [] := by
      simpa using hr0
    have hmw := maxWidth_le 4 _ hle
    simp only [get_inventory]
    rw [hkeep]
    rw [if_neg (by simpa using hdne)]
    rw [if_neg (by
      intro hc
      rw [show invHeaders.length = 5 from rfl] at hc
      omega)]
    rfl
  · intro records hrec
    simp only [get_inventory] at hrec
    by_cases hde : ((rows.map fun r => dropIdx4 (invCells r)).filter
        fun row => !row.isEmpty).isEmpty = true
    · rw [if_pos hde] at hrec
      injection hrec with h
      rw [← h]
      simp
    · rw [if_neg hde] at hrec
      by_cases hmw : maxWidth ((rows.map fun r => dropIdx4 (invCells r)).filter
          fun row => !row.isEmpty) = invHeaders.length
      · rw [if_pos hmw] at hrec
        injection hrec with h
        rw [← h]
        intro hmem
        obtain ⟨a, ha, hpa⟩ := List.mem_map.mp hmem
        have hane : a ≠ [] := by
          have hf := (List.mem_filter.mp ha).2
          simpa using hf
        simp only [padTo] at hpa
        exact hane (List.append_eq_nil.mp hpa).1
      · rw [if_neg hmw] at hrec
        exact InvResult.noConfusion hrec

/-- A six-cell data row: the shape in which the index-4 cell is a real
action-button column, the post-drop width is the required 5, and exactly
one field is dropped. -/
def sixCellRow : InvRow :=
  ⟨["AAPL", "Equity", "Easy", "1000", "LOCATE", "0"], []⟩

/-- Concrete run of `get_inventory_c9_amended` on three six-cell rows. -/
theorem get_inventory_c9_amended_witness :
    get_inventory [sixCellRow, sixCellRow, sixCellRow]
        = InvResult.frame ([sixCellRow, sixCellRow, sixCellRow].map
            fun r => dropIdx4 (invCells r)) :=
  ((get_inventory_c9_amended [sixCellRow, sixCellRow, sixCellRow]).1
    (by decide)).1

end TradeZero
